import Mathlib

/-!
# Verification of the e-commerce order-orchestration saga

Shallow embedding of the order-processing core of the `e-commerce-microservices`
repository:

* the order orchestrator `createOrder` (order-service `orderController.ts`),
  including its intake validation (`validateRequiredFields` from the shared
  utils) and its collaborator clients `validateCustomer`, `validateProduct`,
  `processPayment`, `updateProductStock`;
* the payment service controller `processPayment` with its outcome simulator
  `simulatePaymentProcessing` (payment-service `paymentController.ts`);
* the transaction worker's queue consumer `processMessage` /
  `validateTransactionMessage` (transaction-worker `rabbitmqConsumer.ts`).

Modelling conventions:

* JavaScript numbers are modelled by `JsNumber`: `nan`, the two infinities and
  finite values as rationals.  The comparisons the source performs
  (`<= 0`, `>= 0`, `> ceiling`, `< floor`) and JS truthiness are translated
  case by case, matching IEEE semantics (every comparison with NaN is false).
* Request body fields are modelled as `Option`-valued (a JSON body may omit a
  field).  The order create body additionally carries an optional `orderId`
  field because the controller spreads the whole body (`{...orderData}`) into
  the Mongoose model, whose schema has an `orderId` path.
* Nondeterminism of the network and of `Math.random()` is made explicit as
  input data: each collaborator call's outcome (`HttpResult`,
  `PaymentCallOutcome`) and the simulator's random draws are parameters of the
  saga.
* Mongoose persistence is modelled as an explicit store (a list of documents);
  saving a freshly constructed document appends it, re-saving the same
  document replaces the appended entry (the source re-saves the very document
  object it just created, addressed by `_id`).  `timestamps: true` is modelled
  by explicit `createdAt`/`updatedAt` fields set from clock inputs.
-/

namespace ECommerce

/-- A JavaScript number: NaN, ±Infinity, or a finite value (as a rational). -/
inductive JsNumber where
  | nan
  | inf
  | negInf
  | fin (q : ℚ)
  deriving DecidableEq, Repr

namespace JsNumber

/-- JS truthiness of a number: `0`, `-0` and `NaN` are falsy. -/
def truthy : JsNumber → Bool
  | .nan => false
  | .inf => true
  | .negInf => true
  | .fin q => decide (q ≠ 0)

/-- The JS comparison `x <= 0` (false for NaN). -/
def leZero : JsNumber → Bool
  | .nan => false
  | .inf => false
  | .negInf => true
  | .fin q => decide (q ≤ 0)

/-- The JS comparison `x >= 0` (false for NaN). -/
def geZero : JsNumber → Bool
  | .nan => false
  | .inf => true
  | .negInf => false
  | .fin q => decide (0 ≤ q)

/-- The JS comparison `x > c` for a finite literal `c` (false for NaN). -/
def gtQ : JsNumber → ℚ → Bool
  | .nan, _ => false
  | .inf, _ => true
  | .negInf, _ => false
  | .fin q, c => decide (c < q)

/-- The JS comparison `x < c` for a finite literal `c` (false for NaN). -/
def ltQ : JsNumber → ℚ → Bool
  | .nan, _ => false
  | .inf, _ => false
  | .negInf, _ => true
  | .fin q, c => decide (q < c)

end JsNumber

/-- Order lifecycle status (order-service `types/index.ts`, `OrderStatus`). -/
inductive OrderStatus where
  | pending
  | confirmed
  | processing
  | shipped
  | delivered
  | cancelled
  deriving DecidableEq, Repr

/-- Payment status (payment-service `types/index.ts`, `PaymentStatus`). -/
inductive PaymentStatus where
  | pending
  | processing
  | completed
  | failed
  | refunded
  deriving DecidableEq, Repr

/-- Optional shipping address subdocument of the create-order body. -/
structure ShippingAddress where
  street : Option String
  city : Option String
  state : Option String
  zipCode : Option String
  country : Option String
  deriving DecidableEq, Repr

/-- The JSON body of `POST /api/orders`.  `orderId` is not part of the declared
`CreateOrderRequest` TypeScript interface, but a client may still send it and
the controller spreads the whole body into the Mongoose model, so it is part
of the observable input space. -/
structure CreateOrderRequest where
  customerId : Option String
  productId : Option String
  amount : Option JsNumber
  shippingAddress : Option ShippingAddress
  orderId : Option String
  deriving DecidableEq, Repr

/-- JS truthiness of an optional string field (absent and `""` are falsy). -/
def truthyStr : Option String → Bool
  | none => false
  | some s => !(s == "")

/-- JavaScript's `String.prototype.trim()`: strip leading and trailing
whitespace.  (Defined over the character list so it evaluates by kernel
reduction.) -/
def jsTrim (s : String) : String :=
  ⟨((s.data.dropWhile Char.isWhitespace).reverse.dropWhile Char.isWhitespace).reverse⟩

/-- One field's check in `validateRequiredFields` (shared `utils/index.ts`):
`!data[field] || (typeof data[field] === 'string' && data[field].trim() === '')`,
for a string-typed field. -/
def fieldMissingStr (v : Option String) : Bool :=
  !truthyStr v || (match v with
    | some s => jsTrim s == ""
    | none => false)

/-- One field's check in `validateRequiredFields` for a number-typed field:
only the truthiness test applies (`0` and `NaN` are falsy, hence "missing"). -/
def fieldMissingNum : Option JsNumber → Bool
  | none => true
  | some n => !n.truthy

/-- The error messages accumulated by `validateRequiredFields(orderData,
['customerId', 'productId', 'amount'])`. -/
def requiredFieldErrors (r : CreateOrderRequest) : List String :=
  (if fieldMissingStr r.customerId then ["customerId is required"] else []) ++
  (if fieldMissingStr r.productId then ["productId is required"] else []) ++
  (if fieldMissingNum r.amount then ["amount is required"] else [])

/-- `validateRequiredFields(orderData, ['customerId','productId','amount']).isValid`. -/
def validateRequiredFields (r : CreateOrderRequest) : Bool :=
  (requiredFieldErrors r).isEmpty

/-- Result of a `ServiceResponse` as built by `createServiceResponse` in the
order-service's collaborator clients.  The `data` payload is not inspected by
the saga beyond its presence, so it is dropped. -/
structure ServiceResponse where
  success : Bool
  error : Option String
  statusCode : Option Nat
  deriving DecidableEq, Repr

/-- Outcome of one axios request as the client code discriminates it:
a 2xx reply with a parsed body, a non-2xx reply (`error.response` with a
status and an optional body `message`), `ECONNREFUSED`, or any other error
(timeout, DNS, ...). -/
inductive HttpResult (α : Type) where
  | ok (body : α)
  | httpError (status : Nat) (message : Option String)
  | connRefused
  | otherError
  deriving DecidableEq, Repr

/-- The parts of the customer-service reply body that `validateCustomer`
inspects: `response.data.success` and presence of `response.data.data`. -/
structure CustomerBody where
  success : Bool
  hasData : Bool
  deriving DecidableEq, Repr

/-- `validateCustomer` (order-service `services/customerService.ts`). -/
def validateCustomer : HttpResult CustomerBody → ServiceResponse
  | .ok body =>
      if body.success && body.hasData then
        ⟨true, none, some 200⟩
      else
        ⟨false, some "Customer not found or inactive", some 404⟩
  | .httpError status message =>
      ⟨false, some (message.getD "Customer service error"), some status⟩
  | .connRefused =>
      ⟨false, some "Customer service unavailable", some 503⟩
  | .otherError =>
      ⟨false, some "Internal server error", some 500⟩

/-- The parts of the product-service reply body that `validateProduct`
inspects: `success`, presence of `data`, and `data.isActive` / `data.stock`. -/
structure ProductBody where
  success : Bool
  hasData : Bool
  isActive : Bool
  stock : Int
  deriving DecidableEq, Repr

/-- `validateProduct` (order-service `services/productService.ts`). -/
def validateProduct (r : HttpResult ProductBody) (quantity : Int) : ServiceResponse :=
  match r with
  | .ok body =>
      if body.success && body.hasData then
        if body.isActive && decide (quantity ≤ body.stock) then
          ⟨true, none, some 200⟩
        else
          ⟨false, some "Product not available or insufficient stock", some 400⟩
      else
        ⟨false, some "Product not found", some 404⟩
  | .httpError status message =>
      ⟨false, some (message.getD "Product service error"), some status⟩
  | .connRefused =>
      ⟨false, some "Product service unavailable", some 503⟩
  | .otherError =>
      ⟨false, some "Internal server error", some 500⟩

/-! ## Payment service (payment-service `paymentController.ts`) -/

/-- A Payment document (payment-service Mongoose model).  `failureReason` and
`gatewayResponse` are never written by the processing flow modelled here. -/
structure PaymentDoc where
  paymentId : String
  customerId : String
  orderId : String
  productId : String
  amount : JsNumber
  status : PaymentStatus
  transactionId : Option String
  deriving DecidableEq, Repr

/-- Result of `simulatePaymentProcessing`. -/
structure SimResult where
  success : Bool
  transactionId : Option String
  error : Option String
  deriving DecidableEq, Repr

/-- `simulatePaymentProcessing` (payment-service `paymentController.ts`).
The two `Math.random()` draws are explicit inputs: `isSuccess` is the value of
`Math.random() > 0.05`, and `coin` the value of the second `Math.random() >
0.5` used to pick between the two in-bounds failure reasons; `txid` is the
generated transaction identifier.  Note the outcome is decided by `isSuccess`
alone — the amount influences only the failure message, and the
exceeds-limit message requires `amount > 100000000` strictly. -/
def simulatePaymentProcessing (isSuccess coin : Bool) (txid : String)
    (amount : JsNumber) : SimResult :=
  if isSuccess then
    ⟨true, some txid, none⟩
  else
    let errorMessage :=
      if amount.gtQ 100000000 then "Transaction amount exceeds limit"
      else if amount.ltQ 1 then "Minimum transaction amount not met"
      else if coin then "Insufficient funds"
      else "Card declined by issuer"
    ⟨false, none, some errorMessage⟩

/-- Observable side-effect events of one payment-service request, in the order
they are performed by the source. -/
inductive PmtEvent where
  | persistPending (paymentId : String)
  | simulate
  | persistStatus (paymentId : String) (st : PaymentStatus)
  | publishAttempt (transactionId : String)
  deriving DecidableEq, Repr

/-- An HTTP reply body as built by `createApiResponse` (success flag, message,
optional error detail; the `data` payload is summarised by `success`). -/
structure ApiBody where
  success : Bool
  message : String
  error : Option String
  deriving DecidableEq, Repr

/-- The request body of `POST /api/payments` as sent by the orchestrator's
payment client. -/
structure PaymentRequest where
  customerId : String
  orderId : String
  productId : String
  amount : JsNumber
  deriving DecidableEq, Repr

/-- Result state of one payment-service `processPayment` request. -/
structure PaymentSvcResult where
  store : List PaymentDoc
  events : List PmtEvent
  httpStatus : Nat
  body : ApiBody
  deriving DecidableEq, Repr

/-- The payment-service controller `processPayment`.  `paymentId` and `txid`
are the generated identifiers, `isSuccess`/`coin` the simulator's random
draws, `publishOk` the return value of `rabbitMQService.publishTransaction`
(which swallows its own errors and returns a boolean).  The source persists
the record in `pending`, runs the simulator, persists the terminal status
(re-saving the same document), then — on success only — attempts the queue
publish, whose result is merely logged. -/
def paymentSvcProcessPayment (store : List PaymentDoc) (req : PaymentRequest)
    (paymentId txid : String) (isSuccess coin publishOk : Bool) : PaymentSvcResult :=
  let savedPayment : PaymentDoc :=
    ⟨paymentId, req.customerId, req.orderId, req.productId, req.amount, .pending, none⟩
  let processingResult := simulatePaymentProcessing isSuccess coin txid req.amount
  if processingResult.success then
    let completed : PaymentDoc :=
      { savedPayment with
          status := .completed
          transactionId := processingResult.transactionId }
    { store := store ++ [completed]
      events := [.persistPending paymentId, .simulate,
                 .persistStatus paymentId .completed, .publishAttempt txid]
      httpStatus := 201
      body := ⟨true, "Payment processed successfully", none⟩ }
  else
    let failed : PaymentDoc := { savedPayment with status := .failed }
    { store := store ++ [failed]
      events := [.persistPending paymentId, .simulate,
                 .persistStatus paymentId .failed]
      httpStatus := 400
      body := ⟨false, "Payment processing failed", processingResult.error⟩ }

/-! ## Orchestrator-side payment client (order-service `paymentService.ts`) -/

/-- Outcome of the orchestrator's `POST /api/payments` call.  `reached` means
the request reached the payment service and the reply came back; in
`reachedNoReply` the payment service processed the request but the reply was
lost (e.g. the 10s client timeout expired during the 0.5–2s simulated delay),
so the payment store is still updated while the client sees a generic error.
`connRefused` and `otherError` leave the payment store untouched. -/
inductive PaymentCallOutcome where
  | reached (paymentId txid : String) (isSuccess coin publishOk : Bool)
  | reachedNoReply (paymentId txid : String) (isSuccess coin publishOk : Bool)
  | connRefused
  | otherError
  deriving DecidableEq, Repr

/-- JSON serialization of a number-valued body field as performed on the
axios wire (`JSON.stringify`): a finite number survives unchanged, while
`NaN`, `Infinity` and `-Infinity` are serialized as `null`. -/
def wireNumber : JsNumber → Option JsNumber
  | .fin q => some (.fin q)
  | _ => none

/-- The `amount` rule of `createPaymentSchema` in the payment service's
`validateCreatePayment` middleware (payment-service `middleware/validation.ts`):
`Joi.number().min(0.01).required()` — `null`/absent fails, non-finite values
fail (Joi rejects Infinity), a finite amount passes iff it is at least 0.01.
The other fields the orchestrator sends (non-empty id strings and
`paymentMethod: 'bank_transfer'`) always satisfy their rules, so the
middleware's verdict on this path is the amount rule's verdict. -/
def validateCreatePayment : Option JsNumber → Bool
  | none => false
  | some (.fin q) => decide (mkRat 1 100 ≤ q)
  | some _ => false

/-- Whether the orchestrator's payment request passes the payment route's
validation middleware after JSON serialization of its `amount`
(`router.post('/', validateCreatePayment, processPayment)`). -/
def validPaymentWire (amount : JsNumber) : Bool :=
  validateCreatePayment (wireNumber amount)

/-- The orchestrator's payment client `processPayment` (order-service
`services/paymentService.ts`) composed with the payment route: the
`validateCreatePayment` Joi middleware runs first on the JSON-serialized
body — rejecting with 400 `{message: 'Validation failed'}` before the
controller (and before any Payment record is created) — then the controller
`processPayment` runs.  A finite amount survives the wire unchanged, so when
the middleware passes, the controller receives exactly `req`.
On a 2xx reply the client checks `response.data.success && response.data.data`
(both set by the service's success path); on a non-2xx reply axios throws and
the client surfaces `error.response.data?.message` with the reply's status;
`ECONNREFUSED` maps to 503, anything else to 500. -/
def clientProcessPayment (ps : List PaymentDoc) (req : PaymentRequest) :
    PaymentCallOutcome → List PaymentDoc × ServiceResponse
  | .reached pid txid isS coin pub =>
      if validPaymentWire req.amount then
        let r := paymentSvcProcessPayment ps req pid txid isS coin pub
        if r.body.success then
          (r.store, ⟨true, none, some 200⟩)
        else
          (r.store, ⟨false, some r.body.message, some r.httpStatus⟩)
      else
        (ps, ⟨false, some "Validation failed", some 400⟩)
  | .reachedNoReply pid txid isS coin pub =>
      if validPaymentWire req.amount then
        let r := paymentSvcProcessPayment ps req pid txid isS coin pub
        (r.store, ⟨false, some "Internal server error", some 500⟩)
      else
        (ps, ⟨false, some "Internal server error", some 500⟩)
  | .connRefused =>
      (ps, ⟨false, some "Payment service unavailable", some 503⟩)
  | .otherError =>
      (ps, ⟨false, some "Internal server error", some 500⟩)

/-! ## Order orchestrator (order-service `orderController.ts`) -/

/-- An Order document (order-service Mongoose model, `timestamps: true`).
The schema has no `paymentStatus` path, so that field of the TypeScript
interface never reaches the store. -/
structure OrderDoc where
  orderId : String
  customerId : String
  productId : String
  amount : JsNumber
  orderStatus : OrderStatus
  shippingAddress : Option ShippingAddress
  createdAt : Nat
  updatedAt : Nat
  deriving DecidableEq, Repr

/-- The response projection built in step 7 of `createOrder`.  `paymentStatus`
reads `savedOrder.paymentStatus`, which is not a schema path and is therefore
`undefined` at runtime. -/
structure OrderProjection where
  customerId : String
  orderId : String
  productId : String
  orderStatus : OrderStatus
  amount : JsNumber
  paymentStatus : Option String
  orderDate : Nat
  createdAt : Nat
  updatedAt : Nat
  deriving DecidableEq, Repr

/-- The per-request environment of one saga run: each collaborator call's
outcome, the generated order identifier, and the clock values at the two
persistence points (creation save, terminal-status save). -/
structure SagaEnv where
  customer : HttpResult CustomerBody
  product : HttpResult ProductBody
  payment : PaymentCallOutcome
  stockUpdateSuccess : Bool
  freshOrderId : String
  createTime : Nat
  resolveTime : Nat
  deriving DecidableEq, Repr

/-- Result of one `createOrder` request: the HTTP reply, the final order and
payment stores, and which collaborator calls were issued. -/
structure SagaResult where
  httpStatus : Nat
  success : Bool
  message : String
  error : Option String
  projection : Option OrderProjection
  orderStore : List OrderDoc
  paymentStore : List PaymentDoc
  customerCalled : Bool
  productCalled : Bool
  paymentCalled : Bool
  stockCalled : Bool
  deriving DecidableEq, Repr

/-- The `orderId` the saved order ends up with: the Mongoose constructor takes
it from the spread request body when the `orderId` key is present, and the
`pre('save')` hook generates one only when the field is falsy
(`if (!this.orderId)`). -/
def effectiveOrderId (bodyOrderId : Option String) (freshId : String) : String :=
  match bodyOrderId with
  | some s => if s == "" then freshId else s
  | none => freshId

/-- The order document as first persisted in step 3, in state `pending`. -/
def pendingOrderDoc (req : CreateOrderRequest) (c p : String) (n : JsNumber)
    (env : SagaEnv) : OrderDoc :=
  { orderId := effectiveOrderId req.orderId env.freshOrderId
    customerId := c
    productId := p
    amount := n
    orderStatus := .pending
    shippingAddress := req.shippingAddress
    createdAt := env.createTime
    updatedAt := env.createTime }

/-- Step 4's collaborator call: the orchestrator posts
`{customerId, orderId, productId, amount}` for the freshly saved order. -/
def sagaPaymentCall (env : SagaEnv) (ps : List PaymentDoc)
    (req : CreateOrderRequest) (c p : String) (n : JsNumber) :
    List PaymentDoc × ServiceResponse :=
  clientProcessPayment ps
    ⟨c, (pendingOrderDoc req c p n env).orderId, p, n⟩ env.payment

/-- The pending order after the payment-failure compensation: only
`orderStatus` is assigned (to `cancelled`) and the save refreshes
`updatedAt`. -/
def cancelledOrderDoc (req : CreateOrderRequest) (c p : String) (n : JsNumber)
    (env : SagaEnv) : OrderDoc :=
  { pendingOrderDoc req c p n env with
      orderStatus := OrderStatus.cancelled
      updatedAt := env.resolveTime }

/-- The pending order after the payment-success transition: only
`orderStatus` is assigned (to `confirmed`) and the save refreshes
`updatedAt`. -/
def confirmedOrderDoc (req : CreateOrderRequest) (c p : String) (n : JsNumber)
    (env : SagaEnv) : OrderDoc :=
  { pendingOrderDoc req c p n env with
      orderStatus := OrderStatus.confirmed
      updatedAt := env.resolveTime }

/-- The step-7 success projection of the confirmed order. -/
def confirmedProjection (req : CreateOrderRequest) (c p : String)
    (n : JsNumber) (env : SagaEnv) : OrderProjection :=
  let d := confirmedOrderDoc req c p n env
  { customerId := d.customerId
    orderId := d.orderId
    productId := d.productId
    orderStatus := d.orderStatus
    amount := d.amount
    paymentStatus := none
    orderDate := d.createdAt
    createdAt := d.createdAt
    updatedAt := d.updatedAt }

/-- The saga result shared by every early intake-validation failure. -/
def intakeFailure (os : List OrderDoc) (ps : List PaymentDoc)
    (message : String) (error : Option String) : SagaResult :=
  { httpStatus := 400
    success := false
    message := message
    error := error
    projection := none
    orderStore := os
    paymentStore := ps
    customerCalled := false
    productCalled := false
    paymentCalled := false
    stockCalled := false }

/-- The order-service controller `createOrder` — the saga coordinator.
Translated branch by branch from `orderController.ts`:
intake validation (`validateRequiredFields`, then `amount <= 0`), customer
validation, product validation (quantity 1), creation of the pending order,
the payment call, compensation to `cancelled` on payment failure, transition
to `confirmed` on success, the best-effort stock decrement whose result is
only logged, and the 201 projection response.
The order schema's unique index on `orderId` is modelled at the step-3 save:
if the store already holds an order with the effective `orderId`, the save
throws a duplicate-key error (E11000), the controller's catch replies 500
"Internal server error" / "Failed to create order", and no order is
appended. -/
def createOrder (env : SagaEnv) (os : List OrderDoc) (ps : List PaymentDoc)
    (req : CreateOrderRequest) : SagaResult :=
  if !validateRequiredFields req then
    intakeFailure os ps "Validation failed"
      (some (String.intercalate ", " (requiredFieldErrors req)))
  else
    match req.customerId, req.productId, req.amount with
    | some c, some p, some n =>
      if n.leZero then
        intakeFailure os ps "Amount must be a positive number" none
      else
        let customerValidation := validateCustomer env.customer
        if !customerValidation.success then
          { httpStatus := customerValidation.statusCode.getD 400
            success := false
            message := "Customer validation failed"
            error := customerValidation.error
            projection := none
            orderStore := os
            paymentStore := ps
            customerCalled := true
            productCalled := false
            paymentCalled := false
            stockCalled := false }
        else
          let productValidation := validateProduct env.product 1
          if !productValidation.success then
            { httpStatus := productValidation.statusCode.getD 400
              success := false
              message := "Product validation failed"
              error := productValidation.error
              projection := none
              orderStore := os
              paymentStore := ps
              customerCalled := true
              productCalled := true
              paymentCalled := false
              stockCalled := false }
          else if os.any (fun o =>
              o.orderId == (pendingOrderDoc req c p n env).orderId) then
            { httpStatus := 500
              success := false
              message := "Internal server error"
              error := some "Failed to create order"
              projection := none
              orderStore := os
              paymentStore := ps
              customerCalled := true
              productCalled := true
              paymentCalled := false
              stockCalled := false }
          else
            let call := sagaPaymentCall env ps req c p n
            let paymentResult := call.2
            if !paymentResult.success then
              { httpStatus := paymentResult.statusCode.getD 400
                success := false
                message := "Payment processing failed"
                error := paymentResult.error
                projection := none
                orderStore := os ++ [cancelledOrderDoc req c p n env]
                paymentStore := call.1
                customerCalled := true
                productCalled := true
                paymentCalled := true
                stockCalled := false }
            else
              { httpStatus := 201
                success := true
                message := "Order created and payment processed successfully"
                error := none
                projection := some (confirmedProjection req c p n env)
                orderStore := os ++ [confirmedOrderDoc req c p n env]
                paymentStore := call.1
                customerCalled := true
                productCalled := true
                paymentCalled := true
                stockCalled := true }
    | _, _, _ =>
      -- unreachable: `validateRequiredFields` fails when any field is absent
      intakeFailure os ps "Validation failed"
        (some (String.intercalate ", " (requiredFieldErrors req)))

/-! ## Audit consumer (transaction-worker `rabbitmqConsumer.ts`) -/

/-- A `TransactionMessage` as delivered on the queue (the wire timestamp plays
no role in validation or deduplication and is omitted). -/
structure TransactionMsg where
  customerId : String
  orderId : String
  productId : String
  transactionId : String
  amount : JsNumber
  deriving DecidableEq, Repr

/-- A `TransactionHistory` document (transaction-worker Mongoose model). -/
structure AuditRecord where
  transactionId : String
  customerId : String
  orderId : String
  productId : String
  amount : JsNumber
  status : String
  deriving DecidableEq, Repr

/-- `validateTransactionMessage` (transaction-worker `rabbitmqConsumer.ts`):
an empty `productId` is rejected first, then all four string fields must be
non-empty and `amount >= 0` must hold (false for NaN). -/
def validateTransactionMessage (m : TransactionMsg) : Bool :=
  if m.productId == "" then false
  else
    m.amount.geZero &&
    decide (0 < m.transactionId.length) &&
    decide (0 < m.customerId.length) &&
    decide (0 < m.orderId.length) &&
    decide (0 < m.productId.length)

/-- The consumer's disposition of one delivery. -/
inductive AckAction where
  | ack
  | nackNoRequeue
  deriving DecidableEq, Repr

/-- `processMessage` (transaction-worker `rabbitmqConsumer.ts`): an invalid
message is acknowledged and dropped; a message whose `transactionId` already
has an audit record is acknowledged without inserting; otherwise a new record
with status `completed` is inserted and the message acknowledged.  (The
`nack` path fires only on an unexpected persistence error, which the
in-memory store model cannot produce.) -/
def processMessage (store : List AuditRecord) (m : TransactionMsg) :
    List AuditRecord × AckAction :=
  if !validateTransactionMessage m then
    (store, .ack)
  else if store.any (fun r => r.transactionId == m.transactionId) then
    (store, .ack)
  else
    (store ++ [⟨m.transactionId, m.customerId, m.orderId, m.productId,
                m.amount, "completed"⟩],
     .ack)

/-- Sequential consumption of a list of deliveries (the channel is configured
with `prefetch(1)`, so deliveries are processed one at a time, in order). -/
def consumeAll (store : List AuditRecord) (msgs : List TransactionMsg) :
    List AuditRecord :=
  msgs.foldl (fun s m => (processMessage s m).1) store

/-- Number of audit records bearing a given `transactionId`. -/
def auditCount (store : List AuditRecord) (t : String) : Nat :=
  store.countP (fun r => r.transactionId == t)

/-! ## Cross-store invariant and concrete fixtures -/

/-- The spec's §8 invariant: every confirmed order has a completed Payment
record for its `orderId`. -/
def ConfirmedHasCompletedPayment (os : List OrderDoc) (ps : List PaymentDoc) : Prop :=
  ∀ o ∈ os, o.orderStatus = OrderStatus.confirmed →
    ∃ pd ∈ ps, pd.orderId = o.orderId ∧ pd.status = PaymentStatus.completed

/-- The order store's `orderId` values are pairwise distinct — the property
the schema's unique index on `orderId` maintains. -/
def DistinctOrderIds (os : List OrderDoc) : Prop :=
  List.Pairwise (fun a b => a.orderId ≠ b.orderId) os

/-- Fixture: an environment in which every collaborator call succeeds. -/
def passingEnv : SagaEnv :=
  { customer := .ok ⟨true, true⟩
    product := .ok ⟨true, true, true, 5⟩
    payment := .reached "PAY_1" "TXN_1" true true true
    stockUpdateSuccess := true
    freshOrderId := "ORD_1"
    createTime := 0
    resolveTime := 1 }

/-- Fixture: like `passingEnv` but the payment gateway declines the charge
(the simulator's success draw comes out false). -/
def payDeclinedEnv : SagaEnv :=
  { passingEnv with payment := .reached "PAY_1" "TXN_1" false true true }

/-- Fixture: like `passingEnv` but the stock-decrement PATCH fails. -/
def stockFailEnv : SagaEnv :=
  { passingEnv with stockUpdateSuccess := false }

/-- Fixture: a well-formed create-order body. -/
def baseReq : CreateOrderRequest :=
  { customerId := some "CUST_1"
    productId := some "PROD_1"
    amount := some (.fin 50000)
    shippingAddress := none
    orderId := none }

/-- Fixture: a well-formed transaction message. -/
def baseMsg : TransactionMsg :=
  { customerId := "CUST_1"
    orderId := "ORD_1"
    productId := "PROD_1"
    transactionId := "TXN_1"
    amount := .fin 50000 }

/-! ## Helper lemmas -/

/-- The simulator's verdict is exactly the success draw: the amount never
influences whether the charge succeeds, only the failure message. -/
lemma paymentSvc_body_success (ps : List PaymentDoc) (req : PaymentRequest)
    (pid txid : String) (isS coin pub : Bool) :
    (paymentSvcProcessPayment ps req pid txid isS coin pub).body.success = isS := by
  cases isS <;> simp [paymentSvcProcessPayment, simulatePaymentProcessing]

/-- The payment service only ever appends one document to its store. -/
lemma paymentSvc_store_shape (ps : List PaymentDoc) (req : PaymentRequest)
    (pid txid : String) (isS coin pub : Bool) :
    ∃ d, (paymentSvcProcessPayment ps req pid txid isS coin pub).store = ps ++ [d] := by
  cases isS <;> simp [paymentSvcProcessPayment, simulatePaymentProcessing]

/-- Existing payment documents survive any outcome of the orchestrator's
payment call. -/
lemma mem_clientProcessPayment (ps : List PaymentDoc) (req : PaymentRequest)
    (oc : PaymentCallOutcome) (pd : PaymentDoc) (h : pd ∈ ps) :
    pd ∈ (clientProcessPayment ps req oc).1 := by
  cases oc with
  | reached pid txid isS coin pub =>
      obtain ⟨d, hd⟩ := paymentSvc_store_shape ps req pid txid isS coin pub
      simp only [clientProcessPayment]
      split_ifs <;> simp [hd, List.mem_append, h]
  | reachedNoReply pid txid isS coin pub =>
      obtain ⟨d, hd⟩ := paymentSvc_store_shape ps req pid txid isS coin pub
      simp only [clientProcessPayment]
      split_ifs <;> simp [hd, List.mem_append, h]
  | connRefused => simpa [clientProcessPayment] using h
  | otherError => simpa [clientProcessPayment] using h

/-- When the orchestrator's payment client reports success, the payment store
has gained a completed Payment for exactly the requested order. -/
lemma clientPayment_success_store (ps : List PaymentDoc) (req : PaymentRequest)
    (oc : PaymentCallOutcome)
    (h : (clientProcessPayment ps req oc).2.success = true) :
    ∃ pd, (clientProcessPayment ps req oc).1 = ps ++ [pd] ∧
      pd.orderId = req.orderId ∧ pd.status = PaymentStatus.completed := by
  cases oc with
  | reached pid txid isS coin pub =>
      by_cases hw : validPaymentWire req.amount = true
      · cases isS with
        | true =>
            refine ⟨⟨pid, req.customerId, req.orderId, req.productId, req.amount,
                     .completed, some txid⟩, ?_, rfl, rfl⟩
            simp [clientProcessPayment, hw, paymentSvcProcessPayment,
              simulatePaymentProcessing]
        | false =>
            exfalso
            have hb := paymentSvc_body_success ps req pid txid false coin pub
            simp [clientProcessPayment, hw, hb] at h
      · exfalso
        simp [clientProcessPayment, hw] at h
  | reachedNoReply pid txid isS coin pub =>
      exfalso
      by_cases hw : validPaymentWire req.amount = true <;>
        simp [clientProcessPayment, hw] at h
  | connRefused => exfalso; simp [clientProcessPayment] at h
  | otherError => exfalso; simp [clientProcessPayment] at h

/-! ## Claims -/

/-- C1: if customer and product validation succeed and the order record is
persisted in `pending` (`hsave`: the step-3 save does not hit the `orderId`
unique index) and the payment call then fails — declined or transport
error — the saga transitions the order to `cancelled` and persists it,
returns a failure response carrying the payment call's error message and
status code, and never issues the stock-decrement call. -/
theorem submitOrder_payment_failure_compensates
    (env : SagaEnv) (os : List OrderDoc) (ps : List PaymentDoc)
    (req : CreateOrderRequest) (c p : String) (n : JsNumber)
    (hc : req.customerId = some c) (hp : req.productId = some p)
    (hn : req.amount = some n)
    (hreq : validateRequiredFields req = true)
    (hpos : n.leZero = false)
    (hcust : (validateCustomer env.customer).success = true)
    (hprod : (validateProduct env.product 1).success = true)
    (hsave : os.any (fun o =>
      o.orderId == (pendingOrderDoc req c p n env).orderId) = false)
    (hpay : (sagaPaymentCall env ps req c p n).2.success = false) :
    (createOrder env os ps req).success = false ∧
    (createOrder env os ps req).httpStatus =
      (sagaPaymentCall env ps req c p n).2.statusCode.getD 400 ∧
    (createOrder env os ps req).error = (sagaPaymentCall env ps req c p n).2.error ∧
    (createOrder env os ps req).orderStore = os ++ [cancelledOrderDoc req c p n env] ∧
    (cancelledOrderDoc req c p n env).orderStatus = OrderStatus.cancelled ∧
    (createOrder env os ps req).stockCalled = false := by
  obtain ⟨rc, rp, ra, rs, ro⟩ := req
  simp only at hc hp hn hsave
  subst hc hp hn
  simp only [createOrder, hreq, hpos, hcust, hprod, hsave, hpay,
    Bool.not_true, Bool.not_false]
  simp [cancelledOrderDoc]

/-- Witness for C1 at a declined charge on a well-formed request. -/
theorem submitOrder_payment_failure_compensates_witness :
    (createOrder payDeclinedEnv [] [] baseReq).success = false ∧
    (createOrder payDeclinedEnv [] [] baseReq).httpStatus =
      (sagaPaymentCall payDeclinedEnv [] baseReq "CUST_1" "PROD_1" (.fin 50000)).2.statusCode.getD 400 ∧
    (createOrder payDeclinedEnv [] [] baseReq).error =
      (sagaPaymentCall payDeclinedEnv [] baseReq "CUST_1" "PROD_1" (.fin 50000)).2.error ∧
    (createOrder payDeclinedEnv [] [] baseReq).orderStore =
      [] ++ [cancelledOrderDoc baseReq "CUST_1" "PROD_1" (.fin 50000) payDeclinedEnv] ∧
    (cancelledOrderDoc baseReq "CUST_1" "PROD_1" (.fin 50000) payDeclinedEnv).orderStatus =
      OrderStatus.cancelled ∧
    (createOrder payDeclinedEnv [] [] baseReq).stockCalled = false :=
  submitOrder_payment_failure_compensates payDeclinedEnv [] [] baseReq
    "CUST_1" "PROD_1" (.fin 50000) rfl rfl rfl (by decide) (by decide)
    (by decide) (by decide) (by decide) (by decide)

/-- C10: when payment fails and the compensation runs (the pending order was
persisted — `hsave` — and the payment call failed), only the order's
`orderStatus` (to `cancelled`) and its `updatedAt` timestamp change; the
persisted order keeps exactly the `orderId`, `customerId`, `productId`,
`amount` and `shippingAddress` written at its creation in `pending`. -/
theorem compensation_changes_only_status_and_timestamp
    (env : SagaEnv) (os : List OrderDoc) (ps : List PaymentDoc)
    (req : CreateOrderRequest) (c p : String) (n : JsNumber)
    (hc : req.customerId = some c) (hp : req.productId = some p)
    (hn : req.amount = some n)
    (hreq : validateRequiredFields req = true)
    (hpos : n.leZero = false)
    (hcust : (validateCustomer env.customer).success = true)
    (hprod : (validateProduct env.product 1).success = true)
    (hsave : os.any (fun o =>
      o.orderId == (pendingOrderDoc req c p n env).orderId) = false)
    (hpay : (sagaPaymentCall env ps req c p n).2.success = false) :
    ∃ d, (createOrder env os ps req).orderStore = os ++ [d] ∧
      d.orderStatus = OrderStatus.cancelled ∧
      d.updatedAt = env.resolveTime ∧
      d.orderId = (pendingOrderDoc req c p n env).orderId ∧
      d.customerId = (pendingOrderDoc req c p n env).customerId ∧
      d.productId = (pendingOrderDoc req c p n env).productId ∧
      d.amount = (pendingOrderDoc req c p n env).amount ∧
      d.shippingAddress = (pendingOrderDoc req c p n env).shippingAddress ∧
      d.createdAt = (pendingOrderDoc req c p n env).createdAt ∧
      (pendingOrderDoc req c p n env).customerId = c ∧
      (pendingOrderDoc req c p n env).productId = p ∧
      (pendingOrderDoc req c p n env).amount = n ∧
      (pendingOrderDoc req c p n env).shippingAddress = req.shippingAddress := by
  refine ⟨cancelledOrderDoc req c p n env, ?_, ?_⟩
  · obtain ⟨rc, rp, ra, rs, ro⟩ := req
    simp only at hc hp hn hsave
    subst hc hp hn
    simp only [createOrder, hreq, hpos, hcust, hprod, hsave, hpay,
      Bool.not_true, Bool.not_false]
    simp
  · simp [cancelledOrderDoc, pendingOrderDoc]

/-- Witness for C10 at a declined charge on a well-formed request. -/
theorem compensation_changes_only_status_and_timestamp_witness :
    ∃ d, (createOrder payDeclinedEnv [] [] baseReq).orderStore = [] ++ [d] ∧
      d.orderStatus = OrderStatus.cancelled ∧
      d.updatedAt = payDeclinedEnv.resolveTime ∧
      d.orderId = (pendingOrderDoc baseReq "CUST_1" "PROD_1" (.fin 50000) payDeclinedEnv).orderId ∧
      d.customerId = (pendingOrderDoc baseReq "CUST_1" "PROD_1" (.fin 50000) payDeclinedEnv).customerId ∧
      d.productId = (pendingOrderDoc baseReq "CUST_1" "PROD_1" (.fin 50000) payDeclinedEnv).productId ∧
      d.amount = (pendingOrderDoc baseReq "CUST_1" "PROD_1" (.fin 50000) payDeclinedEnv).amount ∧
      d.shippingAddress =
        (pendingOrderDoc baseReq "CUST_1" "PROD_1" (.fin 50000) payDeclinedEnv).shippingAddress ∧
      d.createdAt = (pendingOrderDoc baseReq "CUST_1" "PROD_1" (.fin 50000) payDeclinedEnv).createdAt ∧
      (pendingOrderDoc baseReq "CUST_1" "PROD_1" (.fin 50000) payDeclinedEnv).customerId = "CUST_1" ∧
      (pendingOrderDoc baseReq "CUST_1" "PROD_1" (.fin 50000) payDeclinedEnv).productId = "PROD_1" ∧
      (pendingOrderDoc baseReq "CUST_1" "PROD_1" (.fin 50000) payDeclinedEnv).amount = .fin 50000 ∧
      (pendingOrderDoc baseReq "CUST_1" "PROD_1" (.fin 50000) payDeclinedEnv).shippingAddress =
        baseReq.shippingAddress :=
  compensation_changes_only_status_and_timestamp payDeclinedEnv [] [] baseReq
    "CUST_1" "PROD_1" (.fin 50000) rfl rfl rfl (by decide) (by decide)
    (by decide) (by decide) (by decide) (by decide)

/-- C4: when payment succeeds and the order has transitioned to `confirmed`,
a failing stock-decrement call does not change the verdict: the order stays
`confirmed` and the response is still HTTP 201 carrying the order
projection — the decrement failure is never surfaced as an error. -/
theorem submitOrder_stock_failure_still_success
    (env : SagaEnv) (os : List OrderDoc) (ps : List PaymentDoc)
    (req : CreateOrderRequest) (c p : String) (n : JsNumber)
    (hc : req.customerId = some c) (hp : req.productId = some p)
    (hn : req.amount = some n)
    (hreq : validateRequiredFields req = true)
    (hpos : n.leZero = false)
    (hcust : (validateCustomer env.customer).success = true)
    (hprod : (validateProduct env.product 1).success = true)
    (hsave : os.any (fun o =>
      o.orderId == (pendingOrderDoc req c p n env).orderId) = false)
    (hpay : (sagaPaymentCall env ps req c p n).2.success = true)
    (hstock : env.stockUpdateSuccess = false) :
    (createOrder env os ps req).httpStatus = 201 ∧
    (createOrder env os ps req).success = true ∧
    (createOrder env os ps req).error = none ∧
    (createOrder env os ps req).projection = some (confirmedProjection req c p n env) ∧
    (confirmedProjection req c p n env).orderStatus = OrderStatus.confirmed ∧
    (createOrder env os ps req).orderStore = os ++ [confirmedOrderDoc req c p n env] ∧
    (confirmedOrderDoc req c p n env).orderStatus = OrderStatus.confirmed := by
  obtain ⟨rc, rp, ra, rs, ro⟩ := req
  simp only at hc hp hn hsave
  subst hc hp hn
  simp only [createOrder, hreq, hpos, hcust, hprod, hsave, hpay,
    Bool.not_true, Bool.not_false]
  simp [confirmedProjection, confirmedOrderDoc]

/-- Witness for C4: successful charge, failing stock decrement. -/
theorem submitOrder_stock_failure_still_success_witness :
    (createOrder stockFailEnv [] [] baseReq).httpStatus = 201 ∧
    (createOrder stockFailEnv [] [] baseReq).success = true ∧
    (createOrder stockFailEnv [] [] baseReq).error = none ∧
    (createOrder stockFailEnv [] [] baseReq).projection =
      some (confirmedProjection baseReq "CUST_1" "PROD_1" (.fin 50000) stockFailEnv) ∧
    (confirmedProjection baseReq "CUST_1" "PROD_1" (.fin 50000) stockFailEnv).orderStatus =
      OrderStatus.confirmed ∧
    (createOrder stockFailEnv [] [] baseReq).orderStore =
      [] ++ [confirmedOrderDoc baseReq "CUST_1" "PROD_1" (.fin 50000) stockFailEnv] ∧
    (confirmedOrderDoc baseReq "CUST_1" "PROD_1" (.fin 50000) stockFailEnv).orderStatus =
      OrderStatus.confirmed :=
  submitOrder_stock_failure_still_success stockFailEnv [] [] baseReq
    "CUST_1" "PROD_1" (.fin 50000) rfl rfl rfl (by decide) (by decide)
    (by decide) (by decide) (by decide) (by decide) (by decide)

/-- C5: if customer validation or product validation fails, the saga fails at
once with the collaborator's status code — 404 when the customer lookup finds
nobody, 503 when the directory is unreachable, the application error's status
propagated verbatim — no payment call is made and neither store changes: no
order record is created. -/
theorem submitOrder_validation_failure_creates_no_order
    (env : SagaEnv) (os : List OrderDoc) (ps : List PaymentDoc)
    (req : CreateOrderRequest) (c p : String) (n : JsNumber)
    (hc : req.customerId = some c) (hp : req.productId = some p)
    (hn : req.amount = some n)
    (hreq : validateRequiredFields req = true)
    (hpos : n.leZero = false)
    (hfail : (validateCustomer env.customer).success = false ∨
             (validateProduct env.product 1).success = false) :
    (createOrder env os ps req).success = false ∧
    (createOrder env os ps req).orderStore = os ∧
    (createOrder env os ps req).paymentStore = ps ∧
    (createOrder env os ps req).paymentCalled = false ∧
    (createOrder env os ps req).stockCalled = false ∧
    (createOrder env os ps req).httpStatus =
      (if (validateCustomer env.customer).success then
        (validateProduct env.product 1).statusCode.getD 400
      else
        (validateCustomer env.customer).statusCode.getD 400) ∧
    (validateCustomer (HttpResult.ok ⟨false, false⟩)).statusCode = some 404 ∧
    (validateCustomer HttpResult.connRefused).statusCode = some 503 ∧
    (∀ st msg, (validateCustomer (HttpResult.httpError st msg)).statusCode = some st) := by
  obtain ⟨rc, rp, ra, rs, ro⟩ := req
  simp only at hc hp hn
  subst hc hp hn
  rcases hfail with hcf | hpf
  · simp only [createOrder, hreq, hpos, hcf, Bool.not_true, Bool.not_false]
    simp [hcf, validateCustomer]
  · by_cases hct : (validateCustomer env.customer).success = true
    · simp only [createOrder, hreq, hpos, hct, hpf, Bool.not_true, Bool.not_false]
      simp [hct, validateCustomer]
    · have hcf : (validateCustomer env.customer).success = false := by
        simpa using hct
      simp only [createOrder, hreq, hpos, hcf, Bool.not_true, Bool.not_false]
      simp [hcf, validateCustomer]

/-- Witness for C5 with an absent customer (lookup replies success=false). -/
theorem submitOrder_validation_failure_creates_no_order_witness :
    (createOrder { passingEnv with customer := .ok ⟨false, false⟩ } [] [] baseReq).success = false ∧
    (createOrder { passingEnv with customer := .ok ⟨false, false⟩ } [] [] baseReq).orderStore = [] ∧
    (createOrder { passingEnv with customer := .ok ⟨false, false⟩ } [] [] baseReq).paymentStore = [] ∧
    (createOrder { passingEnv with customer := .ok ⟨false, false⟩ } [] [] baseReq).paymentCalled = false ∧
    (createOrder { passingEnv with customer := .ok ⟨false, false⟩ } [] [] baseReq).stockCalled = false ∧
    (createOrder { passingEnv with customer := .ok ⟨false, false⟩ } [] [] baseReq).httpStatus =
      (if (validateCustomer ({ passingEnv with
            customer := .ok ⟨false, false⟩ } : SagaEnv).customer).success then
        (validateProduct ({ passingEnv with
            customer := .ok ⟨false, false⟩ } : SagaEnv).product 1).statusCode.getD 400
      else
        (validateCustomer ({ passingEnv with
            customer := .ok ⟨false, false⟩ } : SagaEnv).customer).statusCode.getD 400) ∧
    (validateCustomer (HttpResult.ok ⟨false, false⟩)).statusCode = some 404 ∧
    (validateCustomer HttpResult.connRefused).statusCode = some 503 ∧
    (∀ st msg, (validateCustomer (HttpResult.httpError st msg)).statusCode = some st) :=
  submitOrder_validation_failure_creates_no_order
    { passingEnv with customer := .ok ⟨false, false⟩ } [] [] baseReq
    "CUST_1" "PROD_1" (.fin 50000) rfl rfl rfl (by decide) (by decide)
    (Or.inl (by decide))

/-- C8 counterexample: the claim says a non-finite amount is rejected with a
400 before any network call and before any order record is created, but
`amount = Infinity` (reachable as JSON `1e999`) passes both intake checks —
it is truthy and `Infinity <= 0` is false.  The saga then calls the customer
and product services, persists a pending order, and attempts the payment
call; only there does the amount die: axios serializes `Infinity` to `null`
and the payment route's `validateCreatePayment` middleware rejects it, so
the order ends `cancelled` with a 400 whose error is the payment service's
"Validation failed" — network calls were made and an order record was
created, contradicting the claim. -/
theorem infinite_amount_passes_intake_counterexample :
    (createOrder passingEnv [] []
      { baseReq with amount := some JsNumber.inf }).customerCalled = true ∧
    (createOrder passingEnv [] []
      { baseReq with amount := some JsNumber.inf }).productCalled = true ∧
    (createOrder passingEnv [] []
      { baseReq with amount := some JsNumber.inf }).paymentCalled = true ∧
    ((createOrder passingEnv [] []
        { baseReq with amount := some JsNumber.inf }).orderStore.map
      (fun d => d.orderStatus)) = [OrderStatus.cancelled] ∧
    (createOrder passingEnv [] []
      { baseReq with amount := some JsNumber.inf }).httpStatus = 400 ∧
    (createOrder passingEnv [] []
      { baseReq with amount := some JsNumber.inf }).error =
      some "Validation failed" := by
  decide

/-- C8 (amended): a missing or empty/blank `customerId` or `productId`, a
missing amount, an amount that is `0` or `NaN` (falsy, caught by the
required-fields check) or an amount `<= 0` is rejected with a 400 before any
network call and before any order record is created; a non-finite amount
equal to `+Infinity`, however, passes intake — it is only stopped later, by
the payment route's validation after the pending order exists and the
collaborator calls were made (see the counterexample). -/
theorem intake_validation_rejects_before_network
    (env : SagaEnv) (os : List OrderDoc) (ps : List PaymentDoc)
    (req : CreateOrderRequest)
    (hbad : validateRequiredFields req = false ∨
            ∃ n, req.amount = some n ∧ n.leZero = true) :
    (createOrder env os ps req).httpStatus = 400 ∧
    (createOrder env os ps req).success = false ∧
    (createOrder env os ps req).customerCalled = false ∧
    (createOrder env os ps req).productCalled = false ∧
    (createOrder env os ps req).paymentCalled = false ∧
    (createOrder env os ps req).stockCalled = false ∧
    (createOrder env os ps req).orderStore = os ∧
    (createOrder env os ps req).paymentStore = ps := by
  by_cases hv : validateRequiredFields req = true
  · rcases hbad with hv' | ⟨n, hn, hle⟩
    · rw [hv] at hv'; exact absurd hv' (by simp)
    · obtain ⟨rc, rp, ra, rs, ro⟩ := req
      simp only at hn
      subst hn
      cases rc with
      | none =>
          exfalso
          simp [validateRequiredFields, requiredFieldErrors, fieldMissingStr,
            truthyStr] at hv
      | some c =>
        cases rp with
        | none =>
            exfalso
            simp [validateRequiredFields, requiredFieldErrors, fieldMissingStr,
              truthyStr] at hv
        | some p =>
            simp only [createOrder, hv, hle, Bool.not_true, Bool.not_false]
            simp [intakeFailure]
  · have hv' : validateRequiredFields req = false := by simpa using hv
    obtain ⟨rc, rp, ra, rs, ro⟩ := req
    cases rc <;> cases rp <;> cases ra <;>
      simp [createOrder, hv', intakeFailure]

/-- Witness for C8 (amended) at `amount = 0` (falsy, so caught as missing). -/
theorem intake_validation_rejects_before_network_witness :
    (createOrder passingEnv [] [] { baseReq with amount := some (.fin 0) }).httpStatus = 400 ∧
    (createOrder passingEnv [] [] { baseReq with amount := some (.fin 0) }).success = false ∧
    (createOrder passingEnv [] [] { baseReq with amount := some (.fin 0) }).customerCalled = false ∧
    (createOrder passingEnv [] [] { baseReq with amount := some (.fin 0) }).productCalled = false ∧
    (createOrder passingEnv [] [] { baseReq with amount := some (.fin 0) }).paymentCalled = false ∧
    (createOrder passingEnv [] [] { baseReq with amount := some (.fin 0) }).stockCalled = false ∧
    (createOrder passingEnv [] [] { baseReq with amount := some (.fin 0) }).orderStore = [] ∧
    (createOrder passingEnv [] [] { baseReq with amount := some (.fin 0) }).paymentStore = [] :=
  intake_validation_rejects_before_network passingEnv [] []
    { baseReq with amount := some (.fin 0) } (Or.inl (by decide))

/-- C9 counterexample: the claim says no request payload can determine the
created order's identifier, but the controller spreads the body into the
model and the pre-save hook keeps a truthy client-supplied `orderId`: a
payload carrying `orderId = "CLIENT_SET"` yields an order persisted with
exactly that identifier. -/
theorem client_supplied_orderId_used_counterexample :
    ((createOrder passingEnv [] []
        { baseReq with orderId := some "CLIENT_SET" }).orderStore.map
      (fun d => d.orderId)) = ["CLIENT_SET"] ∧
    (createOrder passingEnv [] []
      { baseReq with orderId := some "CLIENT_SET" }).success = true := by
  decide

/-- A `createOrder` run either leaves the order store unchanged, or — when
the step-3 save passed the `orderId` unique index — appends exactly one
terminal (cancelled or confirmed) order whose `orderId` was absent from the
store. -/
lemma createOrder_orderStore_shape
    (env : SagaEnv) (os : List OrderDoc) (ps : List PaymentDoc)
    (req : CreateOrderRequest) :
    (createOrder env os ps req).orderStore = os ∨
    ∃ c p n, req.customerId = some c ∧ req.productId = some p ∧
      req.amount = some n ∧
      os.any (fun o => o.orderId == (pendingOrderDoc req c p n env).orderId) = false ∧
      ((createOrder env os ps req).orderStore = os ++ [cancelledOrderDoc req c p n env] ∨
       (createOrder env os ps req).orderStore = os ++ [confirmedOrderDoc req c p n env]) := by
  unfold createOrder
  dsimp only
  split
  · left; rfl
  · split
    · rename_i c p n heqc heqp heqn
      split
      · left; rfl
      · split
        · left; rfl
        · split
          · left; rfl
          · split
            · left; rfl
            · rename_i hdup
              split
              · exact Or.inr ⟨c, p, n, heqc, heqp, heqn,
                  by simpa using hdup, Or.inl rfl⟩
              · exact Or.inr ⟨c, p, n, heqc, heqp, heqn,
                  by simpa using hdup, Or.inr rfl⟩
    · left; rfl

/-- C9 (amended): when the payload does not supply a truthy `orderId` (the
field is absent or the empty string), the created order's identifier is the
system-generated one, independent of the rest of the payload (a payload
supplying a non-empty `orderId` does determine the stored identifier — see
the counterexample); and distinct created orders have distinct `orderId`s:
the unique index makes a colliding save fail with 500 and no second order,
so a store with pairwise-distinct `orderId`s stays pairwise-distinct through
every `createOrder` run. -/
theorem generated_orderId_and_distinct_orders
    (env : SagaEnv) (os : List OrderDoc) (ps : List PaymentDoc)
    (req : CreateOrderRequest) :
    ((req.orderId = none ∨ req.orderId = some "") →
      (createOrder env os ps req).orderStore = os ∨
      ∃ d, (createOrder env os ps req).orderStore = os ++ [d] ∧
        d.orderId = env.freshOrderId) ∧
    (DistinctOrderIds os → DistinctOrderIds (createOrder env os ps req).orderStore) := by
  constructor
  · intro hno
    have hid : effectiveOrderId req.orderId env.freshOrderId = env.freshOrderId := by
      rcases hno with h | h <;> simp [effectiveOrderId, h]
    rcases createOrder_orderStore_shape env os ps req with h | ⟨c, p, n, _, _, _, _, h2⟩
    · exact Or.inl h
    · rcases h2 with h2 | h2
      · exact Or.inr ⟨_, h2, by simp [cancelledOrderDoc, pendingOrderDoc, hid]⟩
      · exact Or.inr ⟨_, h2, by simp [confirmedOrderDoc, pendingOrderDoc, hid]⟩
  · intro hdist
    rcases createOrder_orderStore_shape env os ps req
      with h | ⟨c, p, n, _, _, _, hfresh, h2⟩
    · rw [h]; exact hdist
    · have hnotin : ∀ a ∈ os, a.orderId ≠ (pendingOrderDoc req c p n env).orderId := by
        rw [List.any_eq_false] at hfresh
        intro a ha
        simpa using hfresh a ha
      rcases h2 with h2 | h2 <;> rw [h2] <;>
        · unfold DistinctOrderIds at hdist ⊢
          rw [List.pairwise_append]
          refine ⟨hdist, List.pairwise_singleton _ _, ?_⟩
          intro a ha b hb
          simp only [List.mem_singleton] at hb
          subst hb
          simpa [cancelledOrderDoc, confirmedOrderDoc, pendingOrderDoc]
            using hnotin a ha

/-- Witness for C9 (amended): without a payload `orderId`, the stored order
carries the generated identifier, and the store's orderIds stay distinct. -/
theorem generated_orderId_and_distinct_orders_witness :
    ((createOrder passingEnv [] [] baseReq).orderStore = [] ∨
     ∃ d, (createOrder passingEnv [] [] baseReq).orderStore = [] ++ [d] ∧
       d.orderId = passingEnv.freshOrderId) ∧
    DistinctOrderIds (createOrder passingEnv [] [] baseReq).orderStore :=
  ⟨(generated_orderId_and_distinct_orders passingEnv [] [] baseReq).1 (Or.inl rfl),
   (generated_orderId_and_distinct_orders passingEnv [] [] baseReq).2
     (by simp [DistinctOrderIds])⟩

/-- C6 counterexample: with `amount = 100000000` (at the ceiling) the payment
step does not reject the charge — the outcome is the random success draw, so
the charge can succeed and the order be confirmed; on the failure draw the
error at exactly the ceiling is a declined/insufficient-funds message (the
exceeds-limit message needs `amount > 100000000` strictly); and even when the
gateway does report exceeds-limit (amount `100000001`, failure draw), the
saga's response message is the generic "Payment processing failed", which
does not contain "exceeds limit". -/
theorem ceiling_amount_not_rejected_counterexample :
    (createOrder passingEnv [] []
      { baseReq with amount := some (.fin 100000000) }).success = true ∧
    ((createOrder passingEnv [] []
        { baseReq with amount := some (.fin 100000000) }).orderStore.map
      (fun d => d.orderStatus)) = [OrderStatus.confirmed] ∧
    (simulatePaymentProcessing false true "TXN_1" (.fin 100000000)).error =
      some "Insufficient funds" ∧
    (simulatePaymentProcessing false false "TXN_1" (.fin 100000000)).error =
      some "Card declined by issuer" ∧
    (createOrder payDeclinedEnv [] []
      { baseReq with amount := some (.fin 100000001) }).message =
      "Payment processing failed" ∧
    (createOrder payDeclinedEnv [] []
      { baseReq with amount := some (.fin 100000001) }).error =
      some "Payment processing failed" := by
  decide

/-- C6 (amended): when the simulator's success draw comes out false and the
amount is a finite number strictly above the ceiling 100000000 (a non-finite
amount never reaches the simulator: it is serialized to `null` on the wire
and rejected by the payment route's validation), the payment service records
the Payment as `failed` and replies 400 with the "Transaction amount exceeds
limit" error in its body; the orchestrator then transitions the order to
`cancelled` and returns a failure (400) — whose message is the generic
"Payment processing failed", the exceeds-limit text staying inside the
payment service's reply body. -/
theorem payment_failure_above_ceiling_exceeds_limit
    (env : SagaEnv) (os : List OrderDoc) (ps : List PaymentDoc)
    (req : CreateOrderRequest) (c p : String) (n : JsNumber) (q : ℚ)
    (pid txid : String) (coin pub : Bool)
    (hc : req.customerId = some c) (hp : req.productId = some p)
    (hn : req.amount = some n) (hq : n = JsNumber.fin q)
    (hreq : validateRequiredFields req = true)
    (hpos : n.leZero = false)
    (hcust : (validateCustomer env.customer).success = true)
    (hprod : (validateProduct env.product 1).success = true)
    (hsave : os.any (fun o =>
      o.orderId == (pendingOrderDoc req c p n env).orderId) = false)
    (hoc : env.payment = .reached pid txid false coin pub)
    (hceil : n.gtQ 100000000 = true) :
    (simulatePaymentProcessing false coin txid n).error =
      some "Transaction amount exceeds limit" ∧
    (paymentSvcProcessPayment ps
        ⟨c, (pendingOrderDoc req c p n env).orderId, p, n⟩
        pid txid false coin pub).body.error =
      some "Transaction amount exceeds limit" ∧
    (paymentSvcProcessPayment ps
        ⟨c, (pendingOrderDoc req c p n env).orderId, p, n⟩
        pid txid false coin pub).store =
      ps ++ [⟨pid, c, (pendingOrderDoc req c p n env).orderId, p, n,
             PaymentStatus.failed, none⟩] ∧
    (createOrder env os ps req).success = false ∧
    (createOrder env os ps req).httpStatus = 400 ∧
    (createOrder env os ps req).orderStore = os ++ [cancelledOrderDoc req c p n env] ∧
    (cancelledOrderDoc req c p n env).orderStatus = OrderStatus.cancelled ∧
    (createOrder env os ps req).message = "Payment processing failed" ∧
    (createOrder env os ps req).error = some "Payment processing failed" := by
  have hceilq : (100000000 : ℚ) < q := by
    rw [hq] at hceil
    simpa [JsNumber.gtQ] using hceil
  have hw : validPaymentWire n = true := by
    rw [hq]
    simp only [validPaymentWire, wireNumber, validateCreatePayment,
      decide_eq_true_eq, Rat.mkRat_eq_div]
    norm_num
    linarith
  have hsim : simulatePaymentProcessing false coin txid n =
      ⟨false, none, some "Transaction amount exceeds limit"⟩ := by
    simp [simulatePaymentProcessing, hceil]
  have hsvc : paymentSvcProcessPayment ps
      ⟨c, (pendingOrderDoc req c p n env).orderId, p, n⟩ pid txid false coin pub =
      { store := ps ++ [⟨pid, c, (pendingOrderDoc req c p n env).orderId, p, n,
                        PaymentStatus.failed, none⟩]
        events := [.persistPending pid, .simulate, .persistStatus pid .failed]
        httpStatus := 400
        body := ⟨false, "Payment processing failed",
                 some "Transaction amount exceeds limit"⟩ } := by
    simp [paymentSvcProcessPayment, hsim]
  have hcall : sagaPaymentCall env ps req c p n =
      (ps ++ [⟨pid, c, (pendingOrderDoc req c p n env).orderId, p, n,
              PaymentStatus.failed, none⟩],
       ⟨false, some "Payment processing failed", some 400⟩) := by
    simp [sagaPaymentCall, hoc, clientProcessPayment, hw, hsvc]
  have hpay : (sagaPaymentCall env ps req c p n).2.success = false := by
    rw [hcall]
  refine ⟨by rw [hsim], by rw [hsvc], by rw [hsvc], ?_⟩
  obtain ⟨rc, rp, ra, rs, ro⟩ := req
  simp only at hc hp hn hsave hcall hpay hsvc
  subst hc hp hn
  simp only [createOrder, hreq, hpos, hcust, hprod, hsave, hpay,
    Bool.not_true, Bool.not_false]
  simp [hcall, cancelledOrderDoc]

/-- Witness for C6 (amended) at amount 100000001 on the failure draw. -/
theorem payment_failure_above_ceiling_exceeds_limit_witness :
    (simulatePaymentProcessing false true "TXN_1" (.fin 100000001)).error =
      some "Transaction amount exceeds limit" ∧
    (paymentSvcProcessPayment []
        ⟨"CUST_1", (pendingOrderDoc { baseReq with amount := some (.fin 100000001) }
          "CUST_1" "PROD_1" (.fin 100000001) payDeclinedEnv).orderId, "PROD_1",
          .fin 100000001⟩
        "PAY_1" "TXN_1" false true true).body.error =
      some "Transaction amount exceeds limit" ∧
    (paymentSvcProcessPayment []
        ⟨"CUST_1", (pendingOrderDoc { baseReq with amount := some (.fin 100000001) }
          "CUST_1" "PROD_1" (.fin 100000001) payDeclinedEnv).orderId, "PROD_1",
          .fin 100000001⟩
        "PAY_1" "TXN_1" false true true).store =
      [] ++ [⟨"PAY_1", "CUST_1",
             (pendingOrderDoc { baseReq with amount := some (.fin 100000001) }
               "CUST_1" "PROD_1" (.fin 100000001) payDeclinedEnv).orderId, "PROD_1",
             .fin 100000001, PaymentStatus.failed, none⟩] ∧
    (createOrder payDeclinedEnv [] []
      { baseReq with amount := some (.fin 100000001) }).success = false ∧
    (createOrder payDeclinedEnv [] []
      { baseReq with amount := some (.fin 100000001) }).httpStatus = 400 ∧
    (createOrder payDeclinedEnv [] []
      { baseReq with amount := some (.fin 100000001) }).orderStore =
      [] ++ [cancelledOrderDoc { baseReq with amount := some (.fin 100000001) }
              "CUST_1" "PROD_1" (.fin 100000001) payDeclinedEnv] ∧
    (cancelledOrderDoc { baseReq with amount := some (.fin 100000001) }
      "CUST_1" "PROD_1" (.fin 100000001) payDeclinedEnv).orderStatus =
      OrderStatus.cancelled ∧
    (createOrder payDeclinedEnv [] []
      { baseReq with amount := some (.fin 100000001) }).message =
      "Payment processing failed" ∧
    (createOrder payDeclinedEnv [] []
      { baseReq with amount := some (.fin 100000001) }).error =
      some "Payment processing failed" :=
  payment_failure_above_ceiling_exceeds_limit payDeclinedEnv [] []
    { baseReq with amount := some (.fin 100000001) }
    "CUST_1" "PROD_1" (.fin 100000001) 100000001 "PAY_1" "TXN_1" true true
    rfl rfl rfl rfl (by decide) (by decide) (by decide) (by decide) (by decide)
    rfl (by decide)

/-- C2: the order-processing flow preserves the invariant that every order in
`confirmed` status has a completed Payment record for its `orderId`: a
`createOrder` run starting from stores satisfying the invariant ends in
stores satisfying it — the only transition to `confirmed` happens after the
payment client reported success, which itself requires the payment service to
have durably recorded the Payment as `completed` for that order. -/
theorem confirmed_order_has_completed_payment
    (env : SagaEnv) (os : List OrderDoc) (ps : List PaymentDoc)
    (req : CreateOrderRequest)
    (hinv : ConfirmedHasCompletedPayment os ps) :
    ConfirmedHasCompletedPayment (createOrder env os ps req).orderStore
      (createOrder env os ps req).paymentStore := by
  unfold createOrder
  dsimp only
  split
  · simpa [intakeFailure] using hinv
  · split
    · rename_i c p n heqc heqp heqn
      split
      · simpa [intakeFailure] using hinv
      · split
        · exact hinv
        · split
          · exact hinv
          · split
            · exact hinv
            · split
              · intro o ho hconf
                rcases List.mem_append.mp ho with hos | hone
                · obtain ⟨pd, hpd, h1, h2⟩ := hinv o hos hconf
                  exact ⟨pd, mem_clientProcessPayment _ _ _ pd hpd, h1, h2⟩
                · simp only [List.mem_singleton] at hone
                  subst hone
                  simp [cancelledOrderDoc] at hconf
              · rename_i hns
                have hs : (sagaPaymentCall env ps req c p n).2.success = true := by
                  simpa using hns
                intro o ho hconf
                rcases List.mem_append.mp ho with hos | hone
                · obtain ⟨pd, hpd, h1, h2⟩ := hinv o hos hconf
                  exact ⟨pd, mem_clientProcessPayment _ _ _ pd hpd, h1, h2⟩
                · simp only [List.mem_singleton] at hone
                  subst hone
                  obtain ⟨pd, hstore, hoid, hst⟩ :=
                    clientPayment_success_store ps
                      ⟨c, (pendingOrderDoc req c p n env).orderId, p, n⟩ env.payment hs
                  refine ⟨pd, ?_, ?_, hst⟩
                  · show pd ∈ (sagaPaymentCall env ps req c p n).1
                    rw [show (sagaPaymentCall env ps req c p n).1 =
                      (clientProcessPayment ps
                        ⟨c, (pendingOrderDoc req c p n env).orderId, p, n⟩ env.payment).1 from rfl]
                    rw [hstore]
                    simp
                  · rw [hoid]
                    simp [confirmedOrderDoc, pendingOrderDoc]
    · simpa [intakeFailure] using hinv

/-- Witness for C2: from empty stores, a fully successful saga run leaves
stores satisfying the invariant. -/
theorem confirmed_order_has_completed_payment_witness :
    ConfirmedHasCompletedPayment
      (createOrder passingEnv [] [] baseReq).orderStore
      (createOrder passingEnv [] [] baseReq).paymentStore :=
  confirmed_order_has_completed_payment passingEnv [] [] baseReq
    (by intro o ho; simp at ho)

/-- C7: for every charge handled by the payment service, the Payment record
is persisted in `pending` before the outcome is attempted; on success the
Payment is durably updated to `completed` with a transaction identifier
strictly before the queue publish is attempted; and a failed publish does not
change the verdict — the charge is still reported successful (201). -/
theorem payment_persistence_precedes_publish
    (ps : List PaymentDoc) (req : PaymentRequest) (pid txid : String)
    (isS coin pub : Bool) :
    (paymentSvcProcessPayment ps req pid txid isS coin pub).events.take 2 =
      [.persistPending pid, .simulate] ∧
    (isS = true →
      (paymentSvcProcessPayment ps req pid txid isS coin pub).events =
        [.persistPending pid, .simulate, .persistStatus pid .completed,
         .publishAttempt txid] ∧
      (paymentSvcProcessPayment ps req pid txid isS coin pub).store =
        ps ++ [⟨pid, req.customerId, req.orderId, req.productId, req.amount,
               .completed, some txid⟩] ∧
      (pub = false →
        (paymentSvcProcessPayment ps req pid txid isS coin pub).httpStatus = 201 ∧
        (paymentSvcProcessPayment ps req pid txid isS coin pub).body.success = true)) ∧
    (isS = false →
      (paymentSvcProcessPayment ps req pid txid isS coin pub).events =
        [.persistPending pid, .simulate, .persistStatus pid .failed]) := by
  cases isS <;>
    simp [paymentSvcProcessPayment, simulatePaymentProcessing]

/-- Witness for C7: successful charge whose queue publish fails. -/
theorem payment_persistence_precedes_publish_witness :
    (paymentSvcProcessPayment [] ⟨"CUST_1", "ORD_1", "PROD_1", .fin 50000⟩
        "PAY_1" "TXN_1" true true false).events.take 2 =
      [.persistPending "PAY_1", .simulate] ∧
    (true = true →
      (paymentSvcProcessPayment [] ⟨"CUST_1", "ORD_1", "PROD_1", .fin 50000⟩
          "PAY_1" "TXN_1" true true false).events =
        [.persistPending "PAY_1", .simulate, .persistStatus "PAY_1" .completed,
         .publishAttempt "TXN_1"] ∧
      (paymentSvcProcessPayment [] ⟨"CUST_1", "ORD_1", "PROD_1", .fin 50000⟩
          "PAY_1" "TXN_1" true true false).store =
        [] ++ [⟨"PAY_1", "CUST_1", "ORD_1", "PROD_1", .fin 50000,
               .completed, some "TXN_1"⟩] ∧
      (false = false →
        (paymentSvcProcessPayment [] ⟨"CUST_1", "ORD_1", "PROD_1", .fin 50000⟩
            "PAY_1" "TXN_1" true true false).httpStatus = 201 ∧
        (paymentSvcProcessPayment [] ⟨"CUST_1", "ORD_1", "PROD_1", .fin 50000⟩
            "PAY_1" "TXN_1" true true false).body.success = true)) ∧
    (true = false →
      (paymentSvcProcessPayment [] ⟨"CUST_1", "ORD_1", "PROD_1", .fin 50000⟩
          "PAY_1" "TXN_1" true true false).events =
        [.persistPending "PAY_1", .simulate, .persistStatus "PAY_1" .failed]) :=
  payment_persistence_precedes_publish [] ⟨"CUST_1", "ORD_1", "PROD_1", .fin 50000⟩
    "PAY_1" "TXN_1" true true false

/-- A delivery whose `transactionId` already has an audit record is
acknowledged without changing the store (both the invalid-message branch and
the dedup branch return `(store, ack)`). -/
lemma processMessage_existing (s : List AuditRecord) (m : TransactionMsg)
    (hs : s.any (fun r => r.transactionId == m.transactionId) = true) :
    processMessage s m = (s, .ack) := by
  unfold processMessage
  split
  · rfl
  · simp [hs]

/-- Once a record for `t` exists, any further deliveries bearing `t` leave
the audit store unchanged. -/
lemma consumeAll_existing (t : String) (msgs : List TransactionMsg)
    (s : List AuditRecord)
    (hall : ∀ m ∈ msgs, m.transactionId = t)
    (hs : s.any (fun r => r.transactionId == t) = true) :
    consumeAll s msgs = s := by
  induction msgs with
  | nil => rfl
  | cons m rest ih =>
      have hm := hall m (by simp)
      have hstep : processMessage s m = (s, .ack) := by
        refine processMessage_existing s m ?_
        rw [hm]; exact hs
      have hfold : consumeAll s (m :: rest) =
          consumeAll (processMessage s m).1 rest := rfl
      rw [hfold, hstep]
      exact ih (fun x hx => hall x (by simp [hx]))

/-- C3: delivering any non-empty sequence of valid transaction messages all
bearing the same `transactionId` — one at a time, per prefetch=1 — to a store
with no record for that id yields exactly one audit record with it; and once
a record exists, every redelivery bearing that id is acknowledged without
inserting a second record. -/
theorem audit_ingestion_idempotent
    (t : String) (msgs : List TransactionMsg) (store : List AuditRecord)
    (hne : msgs ≠ [])
    (hall : ∀ m ∈ msgs, m.transactionId = t ∧ validateTransactionMessage m = true)
    (h0 : auditCount store t = 0) :
    auditCount (consumeAll store msgs) t = 1 ∧
    (∀ s m, m.transactionId = t →
      s.any (fun r => r.transactionId == t) = true →
      processMessage s m = (s, AckAction.ack)) := by
  constructor
  · obtain ⟨m, rest, rfl⟩ := List.exists_cons_of_ne_nil hne
    have hmt := (hall m (by simp)).1
    have hmv := (hall m (by simp)).2
    have hnone : ∀ r ∈ store, ¬((r.transactionId == t) = true) := by
      intro r hr
      exact List.countP_eq_zero.mp h0 r hr
    have hany : store.any (fun r => r.transactionId == m.transactionId) = false := by
      rw [hmt]
      rw [List.any_eq_false]
      intro r hr
      simpa using hnone r hr
    have hstep : processMessage store m =
        (store ++ [⟨m.transactionId, m.customerId, m.orderId, m.productId,
                    m.amount, "completed"⟩], .ack) := by
      unfold processMessage
      simp [hmv, hany]
    have hfold : consumeAll store (m :: rest) =
        consumeAll (processMessage store m).1 rest := rfl
    rw [hfold, hstep]
    have hs1any : (store ++ [(⟨m.transactionId, m.customerId, m.orderId,
        m.productId, m.amount, "completed"⟩ : AuditRecord)]).any
          (fun r => r.transactionId == t) = true := by
      rw [List.any_eq_true]
      exact ⟨(⟨m.transactionId, m.customerId, m.orderId, m.productId,
        m.amount, "completed"⟩ : AuditRecord),
        List.mem_append_right _ (List.mem_singleton_self _), by simp [hmt]⟩
    rw [consumeAll_existing t rest _ (fun x hx => (hall x (by simp [hx])).1) hs1any]
    unfold auditCount
    rw [List.countP_append]
    have hsc : auditCount store t = 0 := h0
    unfold auditCount at hsc
    rw [hsc]
    simp [hmt]
  · intro s m hmt hsany
    refine processMessage_existing s m ?_
    rw [hmt]; exact hsany

/-- Witness for C3: delivering the same well-formed message twice to an empty
store leaves exactly one audit record with its `transactionId`. -/
theorem audit_ingestion_idempotent_witness :
    auditCount (consumeAll [] [baseMsg, baseMsg]) "TXN_1" = 1 :=
  (audit_ingestion_idempotent "TXN_1" [baseMsg, baseMsg] []
    (by simp) (by decide) (by decide)).1

end ECommerce
